import Mathlib

/-!
Verification of the discodex orchestration layer (`src/www/models.py`)
via a shallow embedding.

Conventions of the embedding:
* A filesystem path is a list of components (`os.path.join root name`
  becomes `root ++ [name]`).
* An artifact's content is its ordered chunk list (`List String`); the
  serialization format is an external collaborator's concern, so
  `Index.dumps`/`Index.loads` are the identity at this level.
* The artifact store (the directory `index_root`) is a partial map from
  paths to contents.
* Blocking remote calls and filesystem mutations are recorded as an
  explicit effect trace, so that "the remote client was not consulted"
  or "no artifact was written" are statable as facts about the trace.
-/

namespace Discodex

/-- An artifact-store snapshot: partial map from path to artifact content
(the ordered chunk list). -/
abbrev Store := List String → Option (List String)

/-- Job-status vocabulary, from `models.py` line 28:
`NOT_FOUND, OK, ACTIVE, DEAD = 'unknown job', 'ready', 'active', 'dead'`. -/
def NOT_FOUND : String := "unknown job"

def OK : String := "ready"

def ACTIVE : String := "active"

def DEAD : String := "dead"

/-- Boolean test that `p` is an initial segment of `s`, char by char.
Embeds Python's `str.startswith` used by `IndexResource.isdisco`. -/
def listStartsWith : List Char → List Char → Bool
  | _, [] => true
  | [], _ :: _ => false
  | c :: cs, p :: ps => c == p && listStartsWith cs ps

/-- `name.startswith(disco_prefix)` from `IndexResource.isdisco`. -/
def strStartsWith (s p : String) : Bool :=
  listStartsWith s.toList p.toList

example : strStartsWith "discodex:job:1" "discodex:" = true := by decide

example : strStartsWith "myindex" "discodex:" = false := by decide

/-- The observable side effects of the handlers: blocking remote calls
(`disco_master.results/clean/purge`, running an `Indexer` job) and
artifact-store writes (`IndexResource.write`). -/
inductive Effect where
  | remoteResults (name : String)
  | writeArtifact (path : List String) (ichunks : List String)
  | clean (name : String)
  | purge (name : String)
  | runIndexer (input : List String) (nr_ichunks : Nat)
deriving DecidableEq, Repr

/-- Applying one effect to an artifact-store snapshot: only
`writeArtifact` mutates local state (remote calls do not). The write
abbreviates the temp-file/rename protocol of `IndexResource.write`,
modelled step by step as `writeSteps` below. -/
def applyEffect (store : Store) : Effect → Store
  | Effect.writeArtifact p c => fun q => if q = p then some c else store q
  | _ => store

/-- Fold a trace of effects over an artifact-store snapshot. -/
def applyEffects (store : Store) : List Effect → Store
  | [] => store
  | e :: es => applyEffects (applyEffect store e) es

/-- The environment a status/read/delegate request runs against.
`store0` is the artifact store as observed at the first existence check,
`store1` as observed at the re-check after the blocking remote call
(a concurrent request may have materialized the artifact in between;
the sequential case is `store0 = store1`). `remote name` is
`disco_master.results(name)`: the job status string plus the result
locations. `parse_dir` is `disco.util.parse_dir`, the external helper
enumerating the chunk urls of one result location. -/
structure Env where
  store0 : Store
  store1 : Store
  remote : String → String × List String
  parse_dir : String → List String

/-- `IndexResource.status` (`models.py` lines 103-118), with its effect
trace. Paired with each status string is the list of remote calls and
writes the resolution performed, in program order:

* artifact present at first check: return `ready`, no effects;
* else, if the name carries the disco prefix: call
  `disco_master.results`; if the artifact is present on re-check return
  `ready`; if the remote status is `ready` flatten the parsed result
  locations, write the artifact, call `disco_master.clean`, and return
  the remote status; otherwise return the remote status;
* else: return `NOT_FOUND`. -/
def IndexResource.status (env : Env) (root : List String) (pfx name : String) :
    String × List Effect :=
  if (env.store0 (root ++ [name])).isSome then (OK, [])
  else if strStartsWith name pfx then
    if (env.store1 (root ++ [name])).isSome then (OK, [Effect.remoteResults name])
    else if (env.remote name).1 = OK then
      ((env.remote name).1,
        [Effect.remoteResults name,
         Effect.writeArtifact (root ++ [name])
           (List.flatten (List.map env.parse_dir (env.remote name).2)),
         Effect.clean name])
    else ((env.remote name).1, [Effect.remoteResults name])
  else (NOT_FOUND, [])

/-- Outcomes of `IndexResource.read` (`models.py` lines 120-128). -/
inductive ReadOutcome where
  | content (ichunks : List String)
  | ioError
  | serviceUnavailable (retry : Nat)
  | serverError (msg : String)
  | http404
deriving DecidableEq, Repr

/-- Whether a `ReadOutcome` carries artifact content. -/
def ReadOutcome.isContent : ReadOutcome → Bool
  | ReadOutcome.content _ => true
  | _ => false

/-- `IndexResource.read` (`models.py` lines 120-128): resolve status,
then dispatch. On `ready` the handler opens `self.path` unguarded and
returns its raw content (`ioError` if the file is in fact absent); on
`active` it returns `HttpResponseServiceUnavailable(100)`; on `dead`,
`HttpResponseServerError("Indexing failed.")`; otherwise `Http404`.
The open observes the store after the status resolution's own writes. -/
def IndexResource.read (env : Env) (root : List String) (pfx name : String) :
    ReadOutcome × List Effect :=
  if (IndexResource.status env root pfx name).1 = OK then
    match applyEffects env.store1 (IndexResource.status env root pfx name).2 (root ++ [name]) with
    | some c => (ReadOutcome.content c, (IndexResource.status env root pfx name).2)
    | none => (ReadOutcome.ioError, (IndexResource.status env root pfx name).2)
  else if (IndexResource.status env root pfx name).1 = ACTIVE then
    (ReadOutcome.serviceUnavailable 100, (IndexResource.status env root pfx name).2)
  else if (IndexResource.status env root pfx name).1 = DEAD then
    (ReadOutcome.serverError "Indexing failed.", (IndexResource.status env root pfx name).2)
  else (ReadOutcome.http404, (IndexResource.status env root pfx name).2)

/-- Outcome of `IndexResource.delegate` (`models.py` lines 64-68):
reject with `Http404` exactly when status resolves to `NOT_FOUND`,
otherwise dispatch to the named property handler. -/
inductive DelegateOutcome where
  | http404
  | dispatched (property : String)
deriving DecidableEq, Repr

/-- `IndexResource.delegate` (`models.py` lines 64-68). -/
def IndexResource.delegate (env : Env) (root : List String) (pfx name property : String) :
    DelegateOutcome :=
  if (IndexResource.status env root pfx name).1 = NOT_FOUND then DelegateOutcome.http404
  else DelegateOutcome.dispatched property

/-- `IndexResource.ichunks` (`models.py` lines 87-89):
`Index.loads(open(self.path).read())['ichunks']`. The open is unguarded;
if no artifact file exists it raises `IOError`, modelled as `error`. -/
def IndexResource.ichunks (store : Store) (root : List String) (name : String) :
    Except String (List String) :=
  match store (root ++ [name]) with
  | some c => Except.ok c
  | none => Except.error "IOError"

/-- Primitive filesystem steps of `IndexResource.write`
(`models.py` lines 147-151). -/
inductive WriteStep where
  | createTemp (p : List String)
  | writeContent (p : List String) (c : List String)
  | renameFile (src dst : List String)
deriving DecidableEq, Repr

/-- Effect of one write-protocol step on the store. `renameFile` is
atomic: in a single step the destination holds the source's full
content and the source is gone. -/
def applyWriteStep (store : Store) : WriteStep → Store
  | WriteStep.createTemp p => fun q => if q = p then some [] else store q
  | WriteStep.writeContent p c => fun q => if q = p then some c else store q
  | WriteStep.renameFile src dst =>
      fun q => if q = dst then store src else if q = src then none else store q

/-- Run a sequence of write-protocol steps. -/
def runWriteSteps (store : Store) : List WriteStep → Store
  | [] => store
  | s :: ss => runWriteSteps (applyWriteStep store s) ss

/-- The path of the `NamedTemporaryFile(delete=False)` that
`IndexResource.write` creates. The source passes no `dir=` argument, so
the file is created in the platform's default temporary directory
`tempDir` — a location independent of the target path. -/
def writeTempPath (tempDir : List String) (tmpName : String) : List String :=
  tempDir ++ [tmpName]

/-- The directory holding a path: all components but the last. -/
def dirOf (p : List String) : List String := p.dropLast

/-- `IndexResource.write` (`models.py` lines 147-151) as its sequence of
filesystem steps: create the named temporary file (in the default
temporary directory `tempDir`, with fresh name `tmpName`), write the
serialized index into it, then `os.rename` it over `self.path`. -/
def IndexResource.writeSteps (tempDir : List String) (tmpName : String)
    (path : List String) (ichunks : List String) : List WriteStep :=
  [WriteStep.createTemp (writeTempPath tempDir tmpName),
   WriteStep.writeContent (writeTempPath tempDir tmpName) ichunks,
   WriteStep.renameFile (writeTempPath tempDir tmpName) path]

/-- Environment of `IndexResource.delete`: the outcome of `os.remove`
(`none` for success, `some e` for an `OSError` with errno `e`) and
whether `disco_master.purge` succeeds. -/
structure DeleteEnv where
  removeErrno : Option Nat
  purgeOk : Bool
deriving DecidableEq, Repr

/-- `errno.ENOENT`. -/
def ENOENT : Nat := 2

/-- Outcomes of `IndexResource.delete` (`models.py` lines 135-145). -/
inductive DeleteOutcome where
  | noContent
  | http404
  | osError (e : Nat)
  | purgeError
deriving DecidableEq, Repr

/-- `IndexResource.delete` (`models.py` lines 135-145): `os.remove` the
artifact; `ENOENT` becomes `Http404`, other `OSError`s re-raise. On
successful removal, if the name carries the disco prefix the handler
calls `disco_master.purge(name)` with no surrounding try: a purge
exception propagates out of the handler (`purgeError`) instead of the
`HttpResponseNoContent`. -/
def IndexResource.delete (env : DeleteEnv) (pfx name : String) :
    DeleteOutcome × List Effect :=
  match env.removeErrno with
  | some e => if e = ENOENT then (DeleteOutcome.http404, []) else (DeleteOutcome.osError e, [])
  | none =>
    if strStartsWith name pfx then
      (if env.purgeOk then DeleteOutcome.noContent else DeleteOutcome.purgeError,
       [Effect.purge name])
    else (DeleteOutcome.noContent, [])

/-- Environment of `DiscoDBResource.read`: whether `job.run` succeeds
(raises `DiscoError` otherwise), whether collecting `job.results`
succeeds, the collected `(key, value)` records when it does, and whether
the `disco_master.purge` in the `finally` succeeds. -/
structure QueryEnv where
  runOk : Bool
  resultsOk : Bool
  results : List (String × String)
  purgeOk : Bool

/-- Outcomes of `DiscoDBResource.read` (`models.py` lines 164-178). -/
inductive QueryOutcome where
  | response (values : List String)
  | runError (msg : String)
  | collectError (msg : String)
  | purgeError
deriving DecidableEq, Repr

/-- `DiscoDBResource.read` (`models.py` lines 164-178), shared by the
keys, values and query resources. First try block: build the job and
`job.run` — a `DiscoError` here returns a 500 immediately, with no purge.
Second try block: collect `self.result_type(v for k, v in job.results)`,
with `finally: disco_master.purge(job.name)` — the purge is attempted
whether or not collection raised, and a purge exception propagates
(`purgeError`), replacing the response or the collection error. -/
def DiscoDBResource.read (env : QueryEnv) (jobName : String) :
    QueryOutcome × List Effect :=
  if env.runOk then
    if env.purgeOk then
      if env.resultsOk then
        (QueryOutcome.response (List.map Prod.snd env.results), [Effect.purge jobName])
      else (QueryOutcome.collectError "DiscoDB job failed", [Effect.purge jobName])
    else (QueryOutcome.purgeError, [Effect.purge jobName])
  else (QueryOutcome.runError "Failed to run DiscoDB job", [])

/-- A `DataSet` submission: the input locations and the remaining
dict-like fields (only the integer-valued ones matter here). -/
structure DataSet where
  input : List String
  fields : List (String × Nat)

/-- Python's `dict.get(key)` on the dataset's extra fields. -/
def DataSet.get (d : DataSet) (k : String) : Option Nat :=
  (List.find? (fun kv => kv.1 == k) d.fields).map (fun kv => kv.2)

/-- Environment of `IndexCollection.create`: whether building and
running the `Indexer` job succeeds (a `DiscoError` otherwise), and the
job name the cluster assigned on success. -/
structure CreateEnv where
  submitOk : Bool
  jobName : String

/-- Outcomes of `IndexCollection.create` (`models.py` lines 45-53). -/
inductive CreateOutcome where
  | accepted (jobName : String)
  | serverError (msg : String)
deriving DecidableEq, Repr

/-- `IndexCollection.create` (`models.py` lines 45-53): read
`nr_ichunks` from the dataset with default 10, build the `Indexer` and
run it against the disco master; on `DiscoError` report
`HttpResponseServerError`, otherwise `HttpResponseAccepted(job.name)`.
Either way the handler performs no artifact-store write. -/
def IndexCollection.create (env : CreateEnv) (dataset : DataSet) :
    CreateOutcome × List Effect :=
  if env.submitOk then
    (CreateOutcome.accepted env.jobName,
     [Effect.runIndexer dataset.input ((DataSet.get dataset "nr_ichunks").getD 10)])
  else
    (CreateOutcome.serverError "Failed to run indexing job",
     [Effect.runIndexer dataset.input ((DataSet.get dataset "nr_ichunks").getD 10)])

/-- Claim C5: if an artifact with the index's name exists in the store,
status resolution returns `ready` with an empty effect trace (the remote
client is not consulted); and when the first check misses but the
re-check after the remote call hits, status resolution returns `ready`
from the local artifact with only the remote call in its trace — no
write, and the result does not depend on the remote answer. -/
theorem C5_local_authoritative (env : Env) (root : List String) (pfx name : String) :
    ((env.store0 (root ++ [name])).isSome = true →
      IndexResource.status env root pfx name = (OK, [])) ∧
    ((env.store0 (root ++ [name])).isSome = false →
      strStartsWith name pfx = true →
      (env.store1 (root ++ [name])).isSome = true →
      IndexResource.status env root pfx name = (OK, [Effect.remoteResults name])) := by
  constructor
  · intro h
    simp [IndexResource.status, h]
  · intro h0 hd h1
    simp [IndexResource.status, h0, hd, h1]

/-- Witness for C5 at concrete environments: a store holding the
artifact (first conjunct), and a store where only the re-check sees it
while the remote job is already `dead` (second conjunct). -/
theorem C5_local_authoritative_witness :
    IndexResource.status
        { store0 := fun _ => some ["c0"], store1 := fun _ => some ["c0"],
          remote := fun _ => (DEAD, []), parse_dir := fun _ => [] }
        ["idx"] "discodex:" "a" = (OK, []) ∧
    IndexResource.status
        { store0 := fun _ => none, store1 := fun _ => some ["c0"],
          remote := fun _ => (DEAD, []), parse_dir := fun _ => [] }
        ["idx"] "discodex:" "discodex:a" = (OK, [Effect.remoteResults "discodex:a"]) :=
  ⟨(C5_local_authoritative _ _ _ _).1 rfl,
   (C5_local_authoritative _ _ _ _).2 rfl (by decide) rfl⟩

/-- Claim C7: with no local artifact at either check, a name that either
does not carry the disco prefix or that the remote client reports as
`unknown job` resolves to the not-found status. -/
theorem C7_not_found (env : Env) (root : List String) (pfx name : String)
    (h0 : env.store0 (root ++ [name]) = none)
    (h1 : env.store1 (root ++ [name]) = none)
    (hcase : strStartsWith name pfx = false ∨ (env.remote name).1 = NOT_FOUND) :
    (IndexResource.status env root pfx name).1 = NOT_FOUND := by
  rcases hcase with h | h
  · simp [IndexResource.status, h0, h]
  · by_cases hd : strStartsWith name pfx
    · simp [IndexResource.status, h0, h1, hd, h, NOT_FOUND, OK]
    · simp [IndexResource.status, h0, hd]

/-- Witness for C7: a name without the disco prefix and an empty store. -/
theorem C7_not_found_witness :
    (IndexResource.status
        { store0 := fun _ => none, store1 := fun _ => none,
          remote := fun _ => (ACTIVE, []), parse_dir := fun _ => [] }
        ["idx"] "discodex:" "myindex").1 = NOT_FOUND :=
  C7_not_found _ _ _ _ rfl rfl (Or.inl (by decide))

/-- Claim C8: when job submission fails, `IndexCollection.create`
reports the submission failure and leaves the artifact store pointwise
unchanged — its effect trace contains no artifact write. -/
theorem C8_no_state_on_failure (env : CreateEnv) (d : DataSet) (store : Store)
    (p : List String) (h : env.submitOk = false) :
    (IndexCollection.create env d).1 =
      CreateOutcome.serverError "Failed to run indexing job" ∧
    applyEffects store (IndexCollection.create env d).2 p = store p := by
  refine ⟨?_, ?_⟩ <;> simp [IndexCollection.create, h, applyEffects, applyEffect]

/-- Witness for C8 at a concrete failing submission. -/
theorem C8_no_state_on_failure_witness :
    (IndexCollection.create { submitOk := false, jobName := "" }
        { input := ["data://a"], fields := [] }).1 =
      CreateOutcome.serverError "Failed to run indexing job" ∧
    applyEffects (fun _ => some ["c0"])
        (IndexCollection.create { submitOk := false, jobName := "" }
          { input := ["data://a"], fields := [] }).2 ["idx", "a"] =
      (fun _ => some ["c0"] : Store) ["idx", "a"] :=
  C8_no_state_on_failure _ _ _ _ rfl

/-- Claim C10: a dataset that omits the `nr_ichunks` field yields an
indexing job constructed with exactly 10 desired chunks, on both the
success and the failure path of the submission. -/
theorem C10_default_ichunks (env : CreateEnv) (d : DataSet)
    (h : DataSet.get d "nr_ichunks" = none) :
    (IndexCollection.create env d).2 = [Effect.runIndexer d.input 10] := by
  by_cases hs : env.submitOk <;> simp [IndexCollection.create, hs, h]

/-- Witness for C10: a dataset whose fields do not include
`nr_ichunks`. -/
theorem C10_default_ichunks_witness :
    (IndexCollection.create { submitOk := true, jobName := "discodex:job:1" }
        { input := ["data://a"], fields := [("other", 5)] }).2 =
      [Effect.runIndexer ["data://a"] 10] :=
  C10_default_ichunks _ _ rfl

/-- Claim C2: for a disco-named index with no local artifact at either
check whose remote job is `ready`, status resolution performs, in order,
the remote call, the artifact write whose content is the flattening of
the per-location chunk enumerations in result-location order, and the
remote clean (the source's `disco_master.clean`, the purge of the
claim), and returns `ready`. Moreover, applying this resolution's
effects over any artifact-store state — in particular over the state a
concurrent writer left — puts exactly that flattened chunk list at the
final path, and any other environment observing the same remote job
produces the identical effect trace, so the final artifact equals the
flattened result locations regardless of which writer's rename won. -/
theorem C2_materialize (env env' : Env) (root : List String) (pfx name : String)
    (store : Store)
    (h0 : env.store0 (root ++ [name]) = none)
    (h1 : env.store1 (root ++ [name]) = none)
    (hd : strStartsWith name pfx = true)
    (hr : (env.remote name).1 = OK)
    (h0' : env'.store0 (root ++ [name]) = none)
    (h1' : env'.store1 (root ++ [name]) = none)
    (hrem : env'.remote name = env.remote name)
    (hpd : env'.parse_dir = env.parse_dir) :
    IndexResource.status env root pfx name =
      (OK,
       [Effect.remoteResults name,
        Effect.writeArtifact (root ++ [name])
          (List.flatten (List.map env.parse_dir (env.remote name).2)),
        Effect.clean name]) ∧
    applyEffects store (IndexResource.status env root pfx name).2 (root ++ [name]) =
      some (List.flatten (List.map env.parse_dir (env.remote name).2)) ∧
    (IndexResource.status env' root pfx name).2 =
      (IndexResource.status env root pfx name).2 := by
  have hmain : IndexResource.status env root pfx name =
      (OK,
       [Effect.remoteResults name,
        Effect.writeArtifact (root ++ [name])
          (List.flatten (List.map env.parse_dir (env.remote name).2)),
        Effect.clean name]) := by
    simp [IndexResource.status, h0, h1, hd, hr]
  refine ⟨hmain, ?_, ?_⟩
  · rw [hmain]
    simp [applyEffects, applyEffect]
  · rw [hmain]
    simp [IndexResource.status, h0', h1', hd, hrem, hpd, hr]

/-- Witness for C2: both environments observe the same completed job
with two result locations, each enumerating two chunks; the store
snapshot already holds a concurrent writer's artifact and is
overwritten with the same flattened list. -/
theorem C2_materialize_witness :
    IndexResource.status
        { store0 := fun _ => none, store1 := fun _ => none,
          remote := fun _ => (OK, ["dir://a", "dir://b"]),
          parse_dir := fun s => [s ++ "/0", s ++ "/1"] }
        ["idx"] "discodex:" "discodex:j" =
      (OK,
       [Effect.remoteResults "discodex:j",
        Effect.writeArtifact (["idx"] ++ ["discodex:j"])
          (List.flatten (List.map (fun s => [s ++ "/0", s ++ "/1"])
            ((fun _ => (OK, ["dir://a", "dir://b"])) "discodex:j").2)),
        Effect.clean "discodex:j"]) ∧
    applyEffects (fun _ => some ["stale"])
        (IndexResource.status
          { store0 := fun _ => none, store1 := fun _ => none,
            remote := fun _ => (OK, ["dir://a", "dir://b"]),
            parse_dir := fun s => [s ++ "/0", s ++ "/1"] }
          ["idx"] "discodex:" "discodex:j").2 (["idx"] ++ ["discodex:j"]) =
      some (List.flatten (List.map (fun s => [s ++ "/0", s ++ "/1"])
        ((fun _ => (OK, ["dir://a", "dir://b"])) "discodex:j").2)) ∧
    (IndexResource.status
        { store0 := fun _ => none, store1 := fun _ => none,
          remote := fun _ => (OK, ["dir://a", "dir://b"]),
          parse_dir := fun s => [s ++ "/0", s ++ "/1"] }
        ["idx"] "discodex:" "discodex:j").2 =
      (IndexResource.status
        { store0 := fun _ => none, store1 := fun _ => none,
          remote := fun _ => (OK, ["dir://a", "dir://b"]),
          parse_dir := fun s => [s ++ "/0", s ++ "/1"] }
        ["idx"] "discodex:" "discodex:j").2 :=
  C2_materialize _ _ _ _ _ _ rfl rfl (by decide) rfl rfl rfl rfl rfl

/-- Counterexample to claim C1 as stated: the temporary file of
`IndexResource.write` is created by `NamedTemporaryFile` with no `dir=`
argument, hence in the platform's default temporary directory — here
`/tmp` — which is not the directory of the target path
`/srv/discodex/index_root/myindex`; the serialization target is not a
temporary file "in the same directory as the target". -/
theorem C1_counterexample :
    IndexResource.writeSteps ["tmp"] "tmp42"
        (["srv", "discodex", "index_root"] ++ ["myindex"]) ["c0"] =
      [WriteStep.createTemp (writeTempPath ["tmp"] "tmp42"),
       WriteStep.writeContent (writeTempPath ["tmp"] "tmp42") ["c0"],
       WriteStep.renameFile (writeTempPath ["tmp"] "tmp42")
         (["srv", "discodex", "index_root"] ++ ["myindex"])] ∧
    dirOf (writeTempPath ["tmp"] "tmp42") ≠
      dirOf (["srv", "discodex", "index_root"] ++ ["myindex"]) := by
  refine ⟨rfl, by decide⟩

/-- Claim C1 as amended: the write serializes to a temporary file in the
platform's default temporary directory (not necessarily the directory of
the target path) and then renames it over the final path; interrupting
the step sequence anywhere before the rename completes leaves the prior
content of the final path (or its absence) intact, and the completed
sequence leaves the complete serialized artifact there — a reader of the
final path never observes a truncated artifact. -/
theorem C1_write_amended (tempDir : List String) (tmpName : String)
    (path ichunks : List String) (store : Store) (n : Nat)
    (hn : n < 3)
    (hfresh : writeTempPath tempDir tmpName ≠ path) :
    runWriteSteps store
        ((IndexResource.writeSteps tempDir tmpName path ichunks).take n) path =
      store path ∧
    runWriteSteps store (IndexResource.writeSteps tempDir tmpName path ichunks) path =
      some ichunks := by
  constructor
  · interval_cases n <;>
      simp [IndexResource.writeSteps, runWriteSteps, applyWriteStep, Ne.symm hfresh]
  · simp [IndexResource.writeSteps, runWriteSteps, applyWriteStep]

/-- Witness for C1 as amended: interrupting after the content write
(step prefix of length 2) leaves the empty store unchanged at the final
path, and the full sequence installs the two-chunk artifact. -/
theorem C1_write_amended_witness :
    runWriteSteps (fun _ => none)
        ((IndexResource.writeSteps ["tmp"] "tmp42" ["idx", "a"] ["c0", "c1"]).take 2)
        ["idx", "a"] =
      (fun _ => none : Store) ["idx", "a"] ∧
    runWriteSteps (fun _ => none)
        (IndexResource.writeSteps ["tmp"] "tmp42" ["idx", "a"] ["c0", "c1"])
        ["idx", "a"] =
      some ["c0", "c1"] :=
  C1_write_amended ["tmp"] "tmp42" ["idx", "a"] ["c0", "c1"] (fun _ => none) 2
    (by decide) (by decide)

/-- Counterexample to claim C3 as stated: when `job.run` raises a
remote-execution error, `DiscoDBResource.read` returns the 500
immediately from the first `except` clause and its effect trace contains
no purge — the purge is not performed on every exit path. -/
theorem C3_counterexample :
    DiscoDBResource.read
        { runOk := false, resultsOk := true, results := [], purgeOk := true }
        "discodex:job:1" =
      (QueryOutcome.runError "Failed to run DiscoDB job", []) ∧
    Effect.purge "discodex:job:1" ∉
      (DiscoDBResource.read
        { runOk := false, resultsOk := true, results := [], purgeOk := true }
        "discodex:job:1").2 := by
  refine ⟨rfl, by decide⟩

/-- Claim C3 as amended: the ephemeral job's remote state is purged on
every exit path that follows a successful `job.run` — when results are
collected successfully and when collecting them raises — but when
running the job itself raises, the handler returns the failure without
purging. -/
theorem C3_purge_amended (env env2 : QueryEnv) (jobName : String)
    (h : env.runOk = true) (h2 : env2.runOk = false) :
    (DiscoDBResource.read env jobName).2 = [Effect.purge jobName] ∧
    (DiscoDBResource.read env2 jobName).2 = [] := by
  constructor
  · by_cases hp : env.purgeOk <;> by_cases hres : env.resultsOk <;>
      simp [DiscoDBResource.read, h, hp, hres]
  · simp [DiscoDBResource.read, h2]

/-- Witness for C3 as amended: a successful run whose result collection
fails still purges; a failed run does not. -/
theorem C3_purge_amended_witness :
    (DiscoDBResource.read
        { runOk := true, resultsOk := false, results := [], purgeOk := true }
        "discodex:job:1").2 = [Effect.purge "discodex:job:1"] ∧
    (DiscoDBResource.read
        { runOk := false, resultsOk := true, results := [], purgeOk := true }
        "discodex:job:1").2 = [] :=
  C3_purge_amended _ _ _ rfl rfl

/-- Counterexample to claim C4 as stated: deleting a disco-named index
whose local artifact is removed successfully but whose
`disco_master.purge` raises does not report success — the purge
exception propagates as the deletion's outcome. -/
theorem C4_counterexample :
    IndexResource.delete { removeErrno := none, purgeOk := false }
        "discodex:" "discodex:idx1" =
      (DeleteOutcome.purgeError, [Effect.purge "discodex:idx1"]) ∧
    (IndexResource.delete { removeErrno := none, purgeOk := false }
        "discodex:" "discodex:idx1").1 ≠ DeleteOutcome.noContent := by
  refine ⟨by decide, by decide⟩

/-- Claim C4 as amended: neither purge site catches purge failures. A
deletion whose artifact removal succeeded surfaces a purge failure as
its own failure instead of reporting success, and a keys/values/query
read whose job ran surfaces a purge failure as its outcome even when
result collection succeeded. -/
theorem C4_purge_propagates (denv : DeleteEnv) (qenv : QueryEnv)
    (pfx name jobName : String)
    (h1 : denv.removeErrno = none)
    (h2 : strStartsWith name pfx = true)
    (h3 : denv.purgeOk = false)
    (h4 : qenv.runOk = true)
    (h5 : qenv.purgeOk = false) :
    IndexResource.delete denv pfx name =
      (DeleteOutcome.purgeError, [Effect.purge name]) ∧
    (DiscoDBResource.read qenv jobName).1 = QueryOutcome.purgeError := by
  constructor
  · simp [IndexResource.delete, h1, h2, h3]
  · simp [DiscoDBResource.read, h4, h5]

/-- Witness for C4 as amended at concrete failing purges. -/
theorem C4_purge_propagates_witness :
    IndexResource.delete { removeErrno := none, purgeOk := false }
        "discodex:" "discodex:idx2" =
      (DeleteOutcome.purgeError, [Effect.purge "discodex:idx2"]) ∧
    (DiscoDBResource.read
        { runOk := true, resultsOk := true, results := [("k", "v")], purgeOk := false }
        "discodex:job:2").1 = QueryOutcome.purgeError :=
  C4_purge_propagates _ _ _ _ _ rfl (by decide) rfl rfl rfl

/-- Claim C9: for a disco-named index with no local artifact whose
remote job is `active` or `dead`, `IndexResource.delegate` does not
reject the request with `Http404` (the 404 is raised exactly when status
resolves to `NOT_FOUND`, which `active`/`dead` are not) but dispatches
to the property handler, and the subsequent unguarded
`open(self.path)` in `IndexResource.ichunks` fails, since status
resolution wrote no artifact. -/
theorem C9_delegate_unguarded (env : Env) (root : List String)
    (pfx name property : String)
    (h0 : env.store0 (root ++ [name]) = none)
    (h1 : env.store1 (root ++ [name]) = none)
    (hd : strStartsWith name pfx = true)
    (hr : (env.remote name).1 = ACTIVE ∨ (env.remote name).1 = DEAD) :
    IndexResource.delegate env root pfx name property =
      DelegateOutcome.dispatched property ∧
    (IndexResource.delegate env root pfx name property = DelegateOutcome.http404 ↔
      (IndexResource.status env root pfx name).1 = NOT_FOUND) ∧
    IndexResource.ichunks
        (applyEffects env.store1 (IndexResource.status env root pfx name).2)
        root name =
      Except.error "IOError" := by
  have hstat : IndexResource.status env root pfx name =
      ((env.remote name).1, [Effect.remoteResults name]) := by
    rcases hr with h | h <;>
      simp [IndexResource.status, h0, h1, hd, h, ACTIVE, DEAD, OK]
  have hne : (env.remote name).1 ≠ NOT_FOUND := by
    rcases hr with h | h <;> rw [h] <;> decide
  refine ⟨?_, ?_, ?_⟩
  · simp [IndexResource.delegate, hstat, hne]
  · simp [IndexResource.delegate, hstat, hne]
  · rw [hstat]
    simp [IndexResource.ichunks, applyEffects, applyEffect, h1]

/-- Witness for C9: an empty store and a remote job reported `active`. -/
theorem C9_delegate_unguarded_witness :
    IndexResource.delegate
        { store0 := fun _ => none, store1 := fun _ => none,
          remote := fun _ => (ACTIVE, []), parse_dir := fun _ => [] }
        ["idx"] "discodex:" "discodex:j" "keys" =
      DelegateOutcome.dispatched "keys" ∧
    (IndexResource.delegate
        { store0 := fun _ => none, store1 := fun _ => none,
          remote := fun _ => (ACTIVE, []), parse_dir := fun _ => [] }
        ["idx"] "discodex:" "discodex:j" "keys" = DelegateOutcome.http404 ↔
      (IndexResource.status
        { store0 := fun _ => none, store1 := fun _ => none,
          remote := fun _ => (ACTIVE, []), parse_dir := fun _ => [] }
        ["idx"] "discodex:" "discodex:j").1 = NOT_FOUND) ∧
    IndexResource.ichunks
        (applyEffects (fun _ => none)
          (IndexResource.status
            { store0 := fun _ => none, store1 := fun _ => none,
              remote := fun _ => (ACTIVE, []), parse_dir := fun _ => [] }
            ["idx"] "discodex:" "discodex:j").2)
        ["idx"] "discodex:j" =
      Except.error "IOError" :=
  C9_delegate_unguarded _ _ _ _ _ rfl rfl (by decide) (Or.inl rfl)

/-- Claim C6: for a GET of an index with a stable store (no concurrent
mutation between the two existence checks), the read returns artifact
content exactly when status resolves to `ready`, and then the content is
the persisted artifact at the index's path; `active` yields the
retryable 503, `dead` yields the 500 failure, and any other status
yields `Http404` — content is never returned in a non-ready status. -/
theorem C6_read_dispatch (env : Env) (root : List String) (pfx name : String)
    (hst : env.store0 = env.store1) :
    ((IndexResource.read env root pfx name).1.isContent = true ↔
      (IndexResource.status env root pfx name).1 = OK) ∧
    ((IndexResource.status env root pfx name).1 = OK →
      (IndexResource.read env root pfx name).1 =
        ReadOutcome.content
          ((applyEffects env.store1 (IndexResource.status env root pfx name).2
            (root ++ [name])).getD [])) ∧
    ((IndexResource.status env root pfx name).1 = ACTIVE →
      (IndexResource.read env root pfx name).1 = ReadOutcome.serviceUnavailable 100) ∧
    ((IndexResource.status env root pfx name).1 = DEAD →
      (IndexResource.read env root pfx name).1 =
        ReadOutcome.serverError "Indexing failed.") ∧
    ((IndexResource.status env root pfx name).1 ≠ OK →
      (IndexResource.status env root pfx name).1 ≠ ACTIVE →
      (IndexResource.status env root pfx name).1 ≠ DEAD →
      (IndexResource.read env root pfx name).1 = ReadOutcome.http404) := by
  by_cases e0 : (env.store0 (root ++ [name])).isSome
  · have e1 : (env.store1 (root ++ [name])).isSome := hst ▸ e0
    obtain ⟨c, hc⟩ := Option.isSome_iff_exists.mp e1
    have hstat : IndexResource.status env root pfx name = (OK, []) := by
      simp [IndexResource.status, e0]
    have hread : IndexResource.read env root pfx name = (ReadOutcome.content c, []) := by
      simp [IndexResource.read, hstat, applyEffects, hc]
    refine ⟨?_, ?_, ?_, ?_, ?_⟩ <;>
      simp [hstat, hread, ReadOutcome.isContent, applyEffects, hc, OK, ACTIVE, DEAD]
  · have h0 : env.store0 (root ++ [name]) = none :=
      Option.not_isSome_iff_eq_none.mp e0
    have h1 : env.store1 (root ++ [name]) = none := hst ▸ h0
    by_cases hd : strStartsWith name pfx
    · by_cases hok : (env.remote name).1 = OK
      · have hstat : IndexResource.status env root pfx name =
            (OK,
             [Effect.remoteResults name,
              Effect.writeArtifact (root ++ [name])
                (List.flatten (List.map env.parse_dir (env.remote name).2)),
              Effect.clean name]) := by
          simp [IndexResource.status, h0, h1, hd, hok]
        have hread : IndexResource.read env root pfx name =
            (ReadOutcome.content
              (List.flatten (List.map env.parse_dir (env.remote name).2)),
             (IndexResource.status env root pfx name).2) := by
          simp [IndexResource.read, hstat, applyEffects, applyEffect]
        refine ⟨?_, ?_, ?_, ?_, ?_⟩ <;>
          simp [hstat, hread, ReadOutcome.isContent, applyEffects, applyEffect,
            OK, ACTIVE, DEAD]
      · have hstat : IndexResource.status env root pfx name =
            ((env.remote name).1, [Effect.remoteResults name]) := by
          simp [IndexResource.status, h0, h1, hd, hok]
        by_cases hact : (env.remote name).1 = ACTIVE
        · have hread : IndexResource.read env root pfx name =
              (ReadOutcome.serviceUnavailable 100, [Effect.remoteResults name]) := by
            simp [IndexResource.read, hstat, hok, hact, OK, ACTIVE]
          refine ⟨?_, ?_, ?_, ?_, ?_⟩ <;>
            simp [hstat, hread, ReadOutcome.isContent, hok, hact, OK, ACTIVE, DEAD]
        · by_cases hdead : (env.remote name).1 = DEAD
          · have hread : IndexResource.read env root pfx name =
                (ReadOutcome.serverError "Indexing failed.",
                 [Effect.remoteResults name]) := by
              simp [IndexResource.read, hstat, hok, hact, hdead, OK, ACTIVE, DEAD]
            refine ⟨?_, ?_, ?_, ?_, ?_⟩ <;>
              simp [hstat, hread, ReadOutcome.isContent, hok, hact, hdead,
                OK, ACTIVE, DEAD]
          · have hread : IndexResource.read env root pfx name =
                (ReadOutcome.http404, [Effect.remoteResults name]) := by
              simp [IndexResource.read, hstat, hok, hact, hdead]
            have hok2 : (env.remote name).1 ≠ "ready" := by simpa [OK] using hok
            have hact2 : (env.remote name).1 ≠ "active" := by simpa [ACTIVE] using hact
            have hdead2 : (env.remote name).1 ≠ "dead" := by simpa [DEAD] using hdead
            refine ⟨?_, ?_, ?_, ?_, ?_⟩ <;>
              simp [hstat, hread, ReadOutcome.isContent, hok2, hact2, hdead2,
                OK, ACTIVE, DEAD]
    · have hstat : IndexResource.status env root pfx name = (NOT_FOUND, []) := by
        simp [IndexResource.status, h0, hd]
      have hread : IndexResource.read env root pfx name =
          (ReadOutcome.http404, []) := by
        simp [IndexResource.read, hstat, NOT_FOUND, OK, ACTIVE, DEAD]
      refine ⟨?_, ?_, ?_, ?_, ?_⟩ <;>
        simp [hstat, hread, ReadOutcome.isContent, NOT_FOUND, OK, ACTIVE, DEAD]

/-- Witness for C6: a stable store holding the artifact; status is
`ready` and the read returns its content. -/
theorem C6_read_dispatch_witness :
    ((IndexResource.read
        { store0 := fun _ => some ["c0"], store1 := fun _ => some ["c0"],
          remote := fun _ => (ACTIVE, []), parse_dir := fun _ => [] }
        ["idx"] "discodex:" "a").1.isContent = true ↔
      (IndexResource.status
        { store0 := fun _ => some ["c0"], store1 := fun _ => some ["c0"],
          remote := fun _ => (ACTIVE, []), parse_dir := fun _ => [] }
        ["idx"] "discodex:" "a").1 = OK) ∧
    ((IndexResource.status
        { store0 := fun _ => some ["c0"], store1 := fun _ => some ["c0"],
          remote := fun _ => (ACTIVE, []), parse_dir := fun _ => [] }
        ["idx"] "discodex:" "a").1 = OK →
      (IndexResource.read
        { store0 := fun _ => some ["c0"], store1 := fun _ => some ["c0"],
          remote := fun _ => (ACTIVE, []), parse_dir := fun _ => [] }
        ["idx"] "discodex:" "a").1 =
        ReadOutcome.content
          ((applyEffects (fun _ => some ["c0"])
            (IndexResource.status
              { store0 := fun _ => some ["c0"], store1 := fun _ => some ["c0"],
                remote := fun _ => (ACTIVE, []), parse_dir := fun _ => [] }
              ["idx"] "discodex:" "a").2 (["idx"] ++ ["a"])).getD [])) ∧
    ((IndexResource.status
        { store0 := fun _ => some ["c0"], store1 := fun _ => some ["c0"],
          remote := fun _ => (ACTIVE, []), parse_dir := fun _ => [] }
        ["idx"] "discodex:" "a").1 = ACTIVE →
      (IndexResource.read
        { store0 := fun _ => some ["c0"], store1 := fun _ => some ["c0"],
          remote := fun _ => (ACTIVE, []), parse_dir := fun _ => [] }
        ["idx"] "discodex:" "a").1 = ReadOutcome.serviceUnavailable 100) ∧
    ((IndexResource.status
        { store0 := fun _ => some ["c0"], store1 := fun _ => some ["c0"],
          remote := fun _ => (ACTIVE, []), parse_dir := fun _ => [] }
        ["idx"] "discodex:" "a").1 = DEAD →
      (IndexResource.read
        { store0 := fun _ => some ["c0"], store1 := fun _ => some ["c0"],
          remote := fun _ => (ACTIVE, []), parse_dir := fun _ => [] }
        ["idx"] "discodex:" "a").1 =
        ReadOutcome.serverError "Indexing failed.") ∧
    ((IndexResource.status
        { store0 := fun _ => some ["c0"], store1 := fun _ => some ["c0"],
          remote := fun _ => (ACTIVE, []), parse_dir := fun _ => [] }
        ["idx"] "discodex:" "a").1 ≠ OK →
      (IndexResource.status
        { store0 := fun _ => some ["c0"], store1 := fun _ => some ["c0"],
          remote := fun _ => (ACTIVE, []), parse_dir := fun _ => [] }
        ["idx"] "discodex:" "a").1 ≠ ACTIVE →
      (IndexResource.status
        { store0 := fun _ => some ["c0"], store1 := fun _ => some ["c0"],
          remote := fun _ => (ACTIVE, []), parse_dir := fun _ => [] }
        ["idx"] "discodex:" "a").1 ≠ DEAD →
      (IndexResource.read
        { store0 := fun _ => some ["c0"], store1 := fun _ => some ["c0"],
          remote := fun _ => (ACTIVE, []), parse_dir := fun _ => [] }
        ["idx"] "discodex:" "a").1 = ReadOutcome.http404) :=
  C6_read_dispatch _ _ _ _ rfl

end Discodex
